import Mathlib

/-
Shallow embedding of src/src/exporter.py (speedtest-exporter).

The exporter invokes the external `speedtest` CLI, parses its JSON output,
and publishes the latest measurement (or a failure sentinel) into labelled
Prometheus instruments, behind a TTL cache.

Modelling conventions:
  * JSON payloads are modelled by `JsonObj`, recording exactly the keys the
    source inspects (`error`, `type`, `timestamp`, `message`, `server`,
    `ping`, `download.bandwidth`, `upload.bandwidth`); every key is optional,
    as in a decoded Python dict.
  * Python exceptions that the source can raise and does not catch
    (KeyError from a missing dict key; ValueError from Result.__init__) are
    modelled by `PyErr` in an `Except`-style result; `Result.parse` catches
    only ValueError, as in the source.
  * Numeric instrument values are exact rationals; the source uses Python
    ints/floats, whose rounding helper is modelled by round-half-to-even on
    rationals.
  * Each labelled Prometheus instrument family is an association list from
    label string to value; writing a label overwrites the previous value for
    that label and never removes other labels.
  * The outcome of one `subprocess.check_output` invocation is an
    environment-supplied `ExecResult` (normal exit, CalledProcessError with
    captured output, or TimeoutExpired).
  * Wall-clock instants (`datetime.datetime.now()`) are integers supplied by
    the environment at each read.
-/

/-- Association-list lookup: first binding for the key, as a Prometheus
labelled-instrument family read. -/
def getL {α : Type} (k : String) : List (String × α) → Option α
  | [] => none
  | (k2, v) :: rest => if k2 = k then some v else getL k rest

/-- Association-list write: overwrite the first binding for the key, or
append a new binding, as a Prometheus labelled-instrument family write. -/
def setL {α : Type} (k : String) (v : α) : List (String × α) → List (String × α)
  | [] => [(k, v)]
  | (k2, v2) :: rest => if k2 = k then (k, v) :: rest else (k2, v2) :: setL k v rest

/-- Python runtime errors that exporter.py can raise and leave uncaught on
the modelled paths: KeyError from a missing dict key, ValueError from
Result.__init__ on a non-result payload. -/
inductive PyErr
  | keyError (key : String)
  | valueError
deriving DecidableEq

/-- The nested `server` object of a result payload:
`server{id,name,location,country}` (exporter.py lines 95-107). The id is the
integer the source obtains via `int(self._data["server"]["id"])`. -/
structure ServerObj where
  id : Int
  name : String
  location : String
  country : String
deriving DecidableEq

/-- The nested `ping` object of a result payload: `ping{latency,jitter}`
(exporter.py lines 109-115). -/
structure PingObj where
  latency : ℚ
  jitter : ℚ
deriving DecidableEq

/-- A decoded JSON payload, recording exactly the keys exporter.py inspects.
Every key is optional, as in a decoded Python dict: `errorKey` is the value
of the `error` key when present, `typeKey` the value of the `type` key, and
so on. `downloadBandwidth` and `uploadBandwidth` stand for
`data["download"]["bandwidth"]` and `data["upload"]["bandwidth"]` in
bytes/second. -/
structure JsonObj where
  errorKey : Option String
  typeKey : Option String
  timestamp : Option String
  message : Option String
  server : Option ServerObj
  ping : Option PingObj
  downloadBandwidth : Option ℚ
  uploadBandwidth : Option ℚ
deriving DecidableEq

/-- Value held by the `speedtest_server` Info instrument: either the empty
record `{}` published on failure, or the four-field record built by
`Result.server_info` (exporter.py lines 97-107). -/
inductive InfoVal
  | empty
  | record (id name location country : String)
deriving DecidableEq

/-- The process-wide labelled instruments created at module load
(exporter.py lines 27-44), one association list per instrument family,
indexed by the `server_id` label. -/
structure Metrics where
  info : List (String × InfoVal)
  ping : List (String × ℚ)
  jitter : List (String × ℚ)
  download_speed : List (String × ℚ)
  upload_speed : List (String × ℚ)
  up : List (String × ℚ)
deriving DecidableEq

/-- Metrics state with no label ever observed. -/
def emptyMetrics : Metrics := ⟨[], [], [], [], [], []⟩

/-- Diagnostic-log/stdout events emitted by exporter.py: the non-JSON CLI
error log (line 143), the timeout log (line 149), the two prints of the
socket-error branch (lines 157-158), the print of a log payload
(line 161), and the logging.info of a successful result (line 178). -/
inductive Diag
  | cliErrorNotJson
  | timeoutMsg
  | socketError (msg : String)
  | logMsg (timestamp message : String)
  | resultInfo (label : String)
deriving DecidableEq

/-- Captured output of the external process: either text that json.loads
accepts (carrying the decoded object) or non-JSON text of a given length
(`is_json` is false; only its emptiness is ever inspected, line 142). -/
inductive RawOut
  | jsonOut (data : JsonObj)
  | notJson (length : Nat)
deriving DecidableEq

/-- Outcome of one `subprocess.check_output` invocation, supplied by the
environment: normal exit with output, CalledProcessError carrying `e.output`
(non-zero exit status), or TimeoutExpired. -/
inductive ExecResult
  | success (output : RawOut)
  | calledProcessError (output : RawOut)
  | timeoutExpired
deriving DecidableEq

/-- Classification of a decoded JSON payload by the dispatch at the end of
execTest (exporter.py lines 153-165): an explicit error payload, a log
notice (printed, then falls through to return None), a measurement
(type = result, wrapped by Result.parse), or none of these (falls off the
end of execTest, returning None). -/
inductive ParseOutcome
  | explicitError (msg : String)
  | logNotice (timestamp message : String)
  | measurement (r : JsonObj)
  | invalid
deriving DecidableEq

/-- exporter.py line 52: `bytes_to_bits`. -/
def bytes_to_bits (bytes_per_sec : ℚ) : ℚ := bytes_per_sec * 8

/-- Python built-in `round` to the nearest integer, ties to the even
neighbour, on exact rationals. -/
def pyRound (x : ℚ) : ℤ :=
  if x - ⌊x⌋ < 1 / 2 then ⌊x⌋
  else if 1 / 2 < x - ⌊x⌋ then ⌊x⌋ + 1
  else if ⌊x⌋ % 2 = 0 then ⌊x⌋ else ⌊x⌋ + 1

/-- Python `round(x, 2)`: round to the nearest multiple of 1/100. -/
def round2 (x : ℚ) : ℚ := (pyRound (x * 100) : ℚ) / 100

/-- exporter.py lines 55-57: `bits_to_megabits` computes
`round(bits_per_sec * 10**-6, 2)`; the source then appends the constant
suffix "Mbps" to the decimal rendering of this number. The numeric value is
modelled; the constant suffix carries no data. -/
def bits_to_megabits (bits_per_sec : ℚ) : ℚ :=
  round2 (bits_per_sec * (1 / 1000000))

/-- exporter.py lines 74-78: `Result.__init__` stores the payload when
`data["type"] == "result"` and raises ValueError otherwise; the subscript
itself raises KeyError when the `type` key is absent. -/
def Result.init (data : JsonObj) : Except PyErr JsonObj :=
  match data.typeKey with
  | none => Except.error (PyErr.keyError "type")
  | some t => if t = "result" then Except.ok data else Except.error PyErr.valueError

/-- exporter.py lines 68-72: `Result.parse` calls the constructor and
catches only ValueError (returning None); any other exception propagates. -/
def Result.parse (data : JsonObj) : Except PyErr (Option JsonObj) :=
  match Result.init data with
  | Except.ok r => Except.ok (some r)
  | Except.error PyErr.valueError => Except.ok none
  | Except.error e => Except.error e

/-- The JSON dispatch at the end of execTest (exporter.py lines 153-165):
a payload with an `error` key is reported and dropped; a `log` payload is
printed (subscripting `timestamp` then `message`, each of which raises
KeyError when absent) and then falls through; a `result` payload goes to
Result.parse; anything else falls off the end. -/
def classifyJson (data : JsonObj) : Except PyErr ParseOutcome :=
  match data.errorKey with
  | some msg => Except.ok (ParseOutcome.explicitError msg)
  | none =>
    match data.typeKey with
    | none => Except.ok ParseOutcome.invalid
    | some t =>
      if t = "log" then
        match data.timestamp with
        | none => Except.error (PyErr.keyError "timestamp")
        | some ts =>
          match data.message with
          | none => Except.error (PyErr.keyError "message")
          | some m => Except.ok (ParseOutcome.logNotice ts m)
      else if t = "result" then
        match Result.parse data with
        | Except.error e => Except.error e
        | Except.ok none => Except.ok ParseOutcome.invalid
        | Except.ok (some r) => Except.ok (ParseOutcome.measurement r)
      else Except.ok ParseOutcome.invalid

/-- Maps a classification to what execTest returns and logs for it:
only a measurement yields a Result object; every other classification
yields None, with its diagnostic side effect. -/
def processJson (data : JsonObj) : Except PyErr (Option JsonObj) × List Diag :=
  match classifyJson data with
  | Except.error e => (Except.error e, [])
  | Except.ok (ParseOutcome.explicitError msg) => (Except.ok none, [Diag.socketError msg])
  | Except.ok (ParseOutcome.logNotice ts m) => (Except.ok none, [Diag.logMsg ts m])
  | Except.ok (ParseOutcome.measurement r) => (Except.ok (some r), [])
  | Except.ok ParseOutcome.invalid => (Except.ok none, [])

/-- exporter.py lines 126-135: the command line built by execTest. Python
`if server_id:` is false for None and for 0, so only a nonzero identifier
adds the `--server-id` pin. -/
def buildCmd (server_id : Option Int) : List String :=
  ["speedtest", "--format=json-pretty", "--progress=no",
   "--accept-license", "--accept-gdpr"] ++
  (match server_id with
   | some n => if n = 0 then [] else ["--server-id=" ++ toString n]
   | none => [])

/-- exporter.py lines 124-165: `execTest`, given the outcome of the
subprocess invocation. TimeoutExpired is logged and yields None. A
CalledProcessError whose captured output is not JSON is logged when
non-empty and yields None; when the output is JSON, control falls through
to the same JSON dispatch as a normal exit. A normal exit with non-JSON
output falls off the end, yielding None. -/
def execTest (res : ExecResult) : Except PyErr (Option JsonObj) × List Diag :=
  match res with
  | ExecResult.timeoutExpired => (Except.ok none, [Diag.timeoutMsg])
  | ExecResult.calledProcessError (RawOut.notJson len) =>
      (Except.ok none, if 0 < len then [Diag.cliErrorNotJson] else [])
  | ExecResult.calledProcessError (RawOut.jsonOut d) => processJson d
  | ExecResult.success (RawOut.notJson _) => (Except.ok none, [])
  | ExecResult.success (RawOut.jsonOut d) => processJson d

/-- exporter.py line 169 failure arm: `str(server_id or "unknown")`.
Python `or` takes the right operand when server_id is None or 0. -/
def pyLabel : Option Int → String
  | none => "unknown"
  | some n => if n = 0 then "unknown" else toString n

/-- exporter.py lines 171-176, failure case (`result` is None): the info
instrument gets the empty record and every gauge gets 0 under the label. -/
def publishFailure (label : String) (st : Metrics) : Metrics :=
  { info := setL label InfoVal.empty st.info
    ping := setL label 0 st.ping
    jitter := setL label 0 st.jitter
    download_speed := setL label 0 st.download_speed
    upload_speed := setL label 0 st.upload_speed
    up := setL label 0 st.up }

/-- exporter.py lines 169-178, success case: the label is the id reported in
the response; instruments are written in source order (info, ping, jitter,
download, upload, up), and each property access on the stored payload
raises KeyError when the nested key is absent, leaving the writes made so
far in place. -/
def publishResult (r : JsonObj) (ds : List Diag) (st : Metrics) :
    Metrics × List Diag × Option PyErr :=
  match r.server with
  | none => (st, ds, some (PyErr.keyError "server"))
  | some srv =>
    let label := toString srv.id
    let st1 := { st with
      info := setL label
        (InfoVal.record (toString srv.id) srv.name srv.location srv.country) st.info }
    match r.ping with
    | none => (st1, ds, some (PyErr.keyError "ping"))
    | some pg =>
      let st2 := { st1 with ping := setL label pg.latency st1.ping }
      let st3 := { st2 with jitter := setL label pg.jitter st2.jitter }
      match r.downloadBandwidth with
      | none => (st3, ds, some (PyErr.keyError "download"))
      | some db =>
        let st4 := { st3 with
          download_speed := setL label (bytes_to_bits db) st3.download_speed }
        match r.uploadBandwidth with
        | none => (st4, ds, some (PyErr.keyError "upload"))
        | some ub =>
          let st5 := { st4 with
            upload_speed := setL label (bytes_to_bits ub) st4.upload_speed }
          ({ st5 with up := setL label 1 st5.up },
           ds ++ [Diag.resultInfo label], none)

/-- exporter.py lines 167-178: `runTest` runs execTest, then publishes
either the measurement or the failure sentinel; an uncaught exception stops
publication and propagates, leaving the metrics written so far. -/
def runTest (server_id : Option Int) (res : ExecResult) (st : Metrics) :
    Metrics × List Diag × Option PyErr :=
  match (execTest res).1 with
  | Except.error e => (st, (execTest res).2, some e)
  | Except.ok none => (publishFailure (pyLabel server_id) st, (execTest res).2, none)
  | Except.ok (some r) => publishResult r (execTest res).2 st

/-- exporter.py lines 186-192: the per-target loop body of updateResults,
running runTest once per (target, subprocess outcome) pair in order; an
uncaught exception aborts the remaining iterations, as a Python exception
leaves the for loop. -/
def runTests : List (Option Int × ExecResult) → Metrics → Metrics × List Diag × Option PyErr
  | [], st => (st, [], none)
  | (sid, res) :: rest, st =>
    match runTest sid res st with
    | (st2, ds, none) =>
      match runTests rest st2 with
      | (st3, ds2, err) => (st3, ds ++ ds2, err)
    | (st2, ds, some e) => (st2, ds, some e)

/-- exporter.py lines 186-191: the target list of one refresh cycle.
`SPEEDTEST_SERVER` unset or empty (falsy) means one default target with no
identifier; otherwise the comma-separated identifiers in order. -/
def targetsOf : Option (List Int) → List (Option Int)
  | none => [none]
  | some ids => ids.map some

/-- The module-level mutable state read and written by updateResults:
`cache_until` (exporter.py line 48) plus the instrument families. -/
structure ServState where
  cache_until : ℤ
  metrics : Metrics
deriving DecidableEq

/-- exporter.py lines 182-198: `updateResults`, the /metrics handler.
`now` is the clock read in the staleness comparison (line 185) and `now2`
the clock read in the cache_until assignment (line 194); `outs` are the
subprocess outcomes consumed by the invocations of this cycle in order.
Returns the new state, whether a measurement cycle was triggered, the
diagnostics, and the uncaught exception if one aborted the cycle (in which
case line 194 never runs and cache_until is unchanged). -/
def updateResults (cache_seconds : ℤ) (env : Option (List Int))
    (now : ℤ) (outs : List ExecResult) (now2 : ℤ) (s : ServState) :
    ServState × Bool × List Diag × Option PyErr :=
  if s.cache_until < now then
    match runTests ((targetsOf env).zip outs) s.metrics with
    | (m, ds, some e) => (⟨s.cache_until, m⟩, true, ds, some e)
    | (m, ds, none) => (⟨now2 + cache_seconds, m⟩, true, ds, none)
  else (s, false, [], none)

/-- Program counter of one request-handling thread executing the body of
updateResults: before the staleness check of line 185, between that check
and the cache_until assignment of line 194 (the interval in which runTest
and the external tool run), or done serving. -/
inductive TPC
  | start
  | measuring
  | finished
deriving DecidableEq

/-- Shared state seen by two threads concurrently executing updateResults:
the module-level cache_until and each thread program counter. The source
takes no lock around the check-then-act on cache_until. -/
structure GateState where
  cache_until : ℤ
  t1 : TPC
  t2 : TPC
deriving DecidableEq

/-- Interleaving semantics of two threads running updateResults at clock
reading `now` with the configured TTL: each thread atomically performs the
staleness comparison of line 185 (entering the measuring interval when
stale, finishing immediately when fresh), and a measuring thread later
performs the cache_until assignment of line 194 and finishes. No other
synchronization exists in the source. -/
inductive gateStep (now ttl : ℤ) : GateState → GateState → Prop
  | check1_stale (s : GateState) : s.t1 = TPC.start → s.cache_until < now →
      gateStep now ttl s { s with t1 := TPC.measuring }
  | check1_fresh (s : GateState) : s.t1 = TPC.start → ¬ s.cache_until < now →
      gateStep now ttl s { s with t1 := TPC.finished }
  | finish1 (s : GateState) : s.t1 = TPC.measuring →
      gateStep now ttl s ⟨now + ttl, TPC.finished, s.t2⟩
  | check2_stale (s : GateState) : s.t2 = TPC.start → s.cache_until < now →
      gateStep now ttl s { s with t2 := TPC.measuring }
  | check2_fresh (s : GateState) : s.t2 = TPC.start → ¬ s.cache_until < now →
      gateStep now ttl s { s with t2 := TPC.finished }
  | finish2 (s : GateState) : s.t2 = TPC.measuring →
      gateStep now ttl s ⟨now + ttl, s.t1, TPC.finished⟩

/-- A well-formed result payload as produced by the external tool. -/
def goodResultData : JsonObj :=
  { errorKey := none
    typeKey := some "result"
    timestamp := none
    message := none
    server := some ⟨10, "TestServer", "Berlin", "Germany"⟩
    ping := some ⟨25, 3⟩
    downloadBandwidth := some 1250000
    uploadBandwidth := some 250000 }

/-- A log payload that carries no timestamp and no message: decoding
`\x7b"type": "log"\x7d` produces exactly this dict. -/
def badLogData : JsonObj :=
  ⟨none, some "log", none, none, none, none, none, none⟩

/-- A well-formed log payload with timestamp and message present. -/
def logOutData : JsonObj :=
  ⟨none, some "log", some "t0", some "m0", none, none, none, none⟩

/-- Whether one subprocess outcome is handled by exporter.py without
raising: everything except a JSON payload that reaches a subscript of a
missing key (a log payload missing timestamp or message, or a result
payload missing one of the nested objects read during publication). -/
def tameJson (d : JsonObj) : Bool :=
  match d.errorKey with
  | some _ => true
  | none =>
    match d.typeKey with
    | none => true
    | some t =>
      if t = "log" then d.timestamp.isSome && d.message.isSome
      else if t = "result" then
        d.server.isSome && d.ping.isSome &&
          d.downloadBandwidth.isSome && d.uploadBandwidth.isSome
      else true

/-- Lifts tameJson to subprocess outcomes. -/
def tame : ExecResult → Bool
  | ExecResult.timeoutExpired => true
  | ExecResult.calledProcessError (RawOut.notJson _) => true
  | ExecResult.success (RawOut.notJson _) => true
  | ExecResult.calledProcessError (RawOut.jsonOut d) => tameJson d
  | ExecResult.success (RawOut.jsonOut d) => tameJson d

/-- Reading back the label just written returns the written value. -/
theorem getL_setL_self {α : Type} (k : String) (v : α) (l : List (String × α)) :
    getL k (setL k v l) = some v := by
  induction l with
  | nil => simp [getL, setL]
  | cons hd tl ih =>
    obtain ⟨k2, v2⟩ := hd
    by_cases h : k2 = k
    · simp [getL, setL, h]
    · simp [getL, setL, h, ih]

/-- Writing one label leaves every other label unchanged. -/
theorem getL_setL_ne {α : Type} (k k2 : String) (v : α) (l : List (String × α))
    (h : k2 ≠ k) : getL k (setL k2 v l) = getL k l := by
  induction l with
  | nil => simp [getL, setL, h]
  | cons hd tl ih =>
    obtain ⟨k3, v3⟩ := hd
    by_cases h3 : k3 = k2
    · subst h3
      simp [getL, setL, h]
    · by_cases h4 : k3 = k
      · subst h4
        simp [getL, setL, h3]
      · simp [getL, setL, h3, h4, ih]

/-- pyRound returns an integer within a half of its argument. -/
theorem pyRound_close (y : ℚ) : |(pyRound y : ℚ) - y| ≤ 1 / 2 := by
  have hfl : (⌊y⌋ : ℚ) ≤ y := Int.floor_le y
  have hfu : y < ⌊y⌋ + 1 := Int.lt_floor_add_one y
  unfold pyRound
  by_cases h1 : y - ⌊y⌋ < 1 / 2
  · rw [if_pos h1, abs_le]
    constructor <;> linarith
  · rw [if_neg h1]
    by_cases h2 : 1 / 2 < y - ⌊y⌋
    · rw [if_pos h2]
      rw [abs_le]
      push_cast
      constructor <;> linarith
    · rw [if_neg h2]
      have heq : y - ⌊y⌋ = 1 / 2 := le_antisymm (not_lt.mp h2) (not_lt.mp h1)
      by_cases h3 : ⌊y⌋ % 2 = 0
      · rw [if_pos h3, abs_le]
        constructor <;> linarith
      · rw [if_neg h3, abs_le]
        push_cast
        constructor <;> linarith

/-- A tame JSON payload never makes the publication path raise: whichever
classification it receives, runTest completes without an uncaught
exception. -/
theorem runTest_json_tame (d : JsonObj) (h : tameJson d = true)
    (sid : Option Int) (st : Metrics) (res : ExecResult)
    (hres : execTest res = processJson d) :
    (runTest sid res st).2.2 = none := by
  unfold runTest
  rw [hres]
  obtain ⟨ek, tk, ts, msg, srv, pg, db, ub⟩ := d
  cases ek with
  | some m => simp [processJson, classifyJson]
  | none =>
    cases tk with
    | none => simp [processJson, classifyJson]
    | some t =>
      by_cases hlog : t = "log"
      · subst hlog
        simp [tameJson] at h
        obtain ⟨h1, h2⟩ := h
        obtain ⟨ts2, hts⟩ := Option.isSome_iff_exists.mp h1
        obtain ⟨m2, hm⟩ := Option.isSome_iff_exists.mp h2
        subst hts
        subst hm
        simp [processJson, classifyJson]
      · by_cases hres2 : t = "result"
        · subst hres2
          simp [tameJson] at h
          obtain ⟨⟨⟨h1, h2⟩, h3⟩, h4⟩ := h
          obtain ⟨srv2, hsrv⟩ := Option.isSome_iff_exists.mp h1
          obtain ⟨pg2, hpg⟩ := Option.isSome_iff_exists.mp h2
          obtain ⟨db2, hdb⟩ := Option.isSome_iff_exists.mp h3
          obtain ⟨ub2, hub⟩ := Option.isSome_iff_exists.mp h4
          subst hsrv
          subst hpg
          subst hdb
          subst hub
          simp [processJson, classifyJson, Result.parse, Result.init, publishResult]
        · simp [processJson, classifyJson, hlog, hres2]

/-- A tame subprocess outcome never makes runTest raise. -/
theorem runTest_tame (sid : Option Int) (res : ExecResult) (st : Metrics)
    (h : tame res = true) : (runTest sid res st).2.2 = none := by
  cases res with
  | timeoutExpired => rfl
  | calledProcessError out =>
    cases out with
    | notJson len => rfl
    | jsonOut d => exact runTest_json_tame d h sid st _ rfl
  | success out =>
    cases out with
    | notJson len => rfl
    | jsonOut d => exact runTest_json_tame d h sid st _ rfl

/-- Over a list of targets whose subprocess outcomes are all tame, the
per-target loop completes every iteration without an uncaught exception. -/
theorem runTests_tame (pairs : List (Option Int × ExecResult)) (st : Metrics)
    (h : ∀ p ∈ pairs, tame p.2 = true) : (runTests pairs st).2.2 = none := by
  induction pairs generalizing st with
  | nil => rfl
  | cons hd tl ih =>
    obtain ⟨sid, res⟩ := hd
    have h1 : tame res = true := h (sid, res) (List.mem_cons_self _ _)
    have h2 : ∀ p ∈ tl, tame p.2 = true := fun p hp => h p (List.mem_cons_of_mem _ hp)
    unfold runTests
    rcases hrun : runTest sid res st with ⟨st2, ds, err⟩
    have herr : err = none := by
      have := runTest_tame sid res st h1
      rw [hrun] at this
      exact this
    subst herr
    rcases hrec : runTests tl st2 with ⟨st3, ds2, err2⟩
    have herr2 : err2 = none := by
      have := ih st2 h2
      rw [hrec] at this
      exact this
    subst herr2
    simp [hrun, hrec]

/-- When execTest classifies the attempt as a failure (returns None without
raising), runTest publishes exactly the failure sentinel under the Python
label of the requested identifier and raises nothing. -/
theorem runTest_failure_eq (sid : Option Int) (res : ExecResult) (st : Metrics)
    (h : (execTest res).1 = Except.ok none) :
    runTest sid res st = (publishFailure (pyLabel sid) st, (execTest res).2, none) := by
  unfold runTest
  rw [h]

/-- A payload whose type key holds an unrecognized kind. -/
def fooData : JsonObj := ⟨none, some "foo", none, none, none, none, none, none⟩

/-- C1 (amended). A decoded payload whose kind discriminator is not exactly
"result" never yields a Measurement from the parse dispatch; and whenever a
log-kind payload also carries its timestamp and message keys, the dispatch
returns a non-Measurement classification (LogNotice, ExplicitError or
Invalid) instead of raising. -/
theorem parse_nonresult_no_measurement (data : JsonObj)
    (h : data.typeKey ≠ some "result") :
    (∀ r, classifyJson data ≠ Except.ok (ParseOutcome.measurement r)) ∧
    ((data.errorKey = none → data.typeKey = some "log" →
        data.timestamp.isSome = true ∧ data.message.isSome = true) →
      ∃ o, classifyJson data = Except.ok o ∧
        ∀ r, o ≠ ParseOutcome.measurement r) := by
  obtain ⟨ek, tk, ts, msg, srv, pg, db, ub⟩ := data
  cases ek with
  | some m =>
    constructor
    · intro r hr
      simp [classifyJson] at hr
    · intro _
      refine ⟨ParseOutcome.explicitError m, rfl, ?_⟩
      intro r
      simp
  | none =>
    cases tk with
    | none =>
      constructor
      · intro r hr
        simp [classifyJson] at hr
      · intro _
        refine ⟨ParseOutcome.invalid, rfl, ?_⟩
        intro r
        simp
    | some t =>
      have hne : t ≠ "result" := by
        intro he
        rw [he] at h
        exact h rfl
      by_cases hlog : t = "log"
      · subst hlog
        constructor
        · intro r hr
          cases ts <;> cases msg <;> simp [classifyJson] at hr
        · intro hwf
          obtain ⟨h1, h2⟩ := hwf rfl rfl
          obtain ⟨ts2, hts⟩ := Option.isSome_iff_exists.mp h1
          obtain ⟨m2, hm⟩ := Option.isSome_iff_exists.mp h2
          subst hts
          subst hm
          refine ⟨ParseOutcome.logNotice ts2 m2, by simp [classifyJson], ?_⟩
          intro r
          simp
      · constructor
        · intro r hr
          simp [classifyJson, hlog, hne] at hr
        · intro _
          refine ⟨ParseOutcome.invalid, by simp [classifyJson, hlog, hne], ?_⟩
          intro r
          simp

/-- Witness for parse_nonresult_no_measurement at a concrete unrecognized
kind. -/
theorem parse_nonresult_no_measurement_witness :
    (fooData.typeKey ≠ some "result") ∧
    ((∀ r, classifyJson fooData ≠ Except.ok (ParseOutcome.measurement r)) ∧
     ((fooData.errorKey = none → fooData.typeKey = some "log" →
         fooData.timestamp.isSome = true ∧ fooData.message.isSome = true) →
       ∃ o, classifyJson fooData = Except.ok o ∧
         ∀ r, o ≠ ParseOutcome.measurement r)) :=
  ⟨by decide, parse_nonresult_no_measurement fooData (by decide)⟩

/-- C1 counterexample. The payload decoded from a bare log object with no
timestamp key has kind "log", not "result", yet the parse dispatch raises
an uncaught KeyError instead of returning any LogNotice, ExplicitError or
Invalid classification. -/
theorem parse_nonresult_keyerror_cex :
    badLogData.typeKey ≠ some "result" ∧
    classifyJson badLogData = Except.error (PyErr.keyError "timestamp") :=
  ⟨by decide, rfl⟩

/-- C2 (amended). A refresh attempt whose tool output decodes to a
well-formed log payload writes the log line to the diagnostic log, but the
attempt is then treated as a failed measurement: runTest publishes the
failure sentinel (up 0, all gauges 0, empty target-info) under the label of
the requested target, overwriting the previously published values. -/
theorem log_payload_publishes_failure (sid : Option Int) (st : Metrics)
    (ts m : String) (srv : Option ServerObj) (pg : Option PingObj)
    (db ub : Option ℚ) :
    runTest sid (ExecResult.success (RawOut.jsonOut
        ⟨none, some "log", some ts, some m, srv, pg, db, ub⟩)) st =
      (publishFailure (pyLabel sid) st, [Diag.logMsg ts m], none) := by
  rfl

/-- C2 counterexample. Starting from instruments with no label observed, an
attempt whose tool output is a log payload changes the published up gauge
for the target label (it becomes 0), so the instrument values are not left
unchanged by the attempt. -/
theorem log_payload_metrics_changed_cex :
    getL "unknown" ((runTest none
        (ExecResult.success (RawOut.jsonOut logOutData)) emptyMetrics).1).up =
      some 0 ∧
    getL "unknown" emptyMetrics.up = none :=
  ⟨rfl, rfl⟩

/-- C3 (amended). Every failed attempt that execTest classifies (timeout,
unparsable output, explicit tool error, log payload, or unrecognized kind)
publishes, under the Python label of the requested identifier, up 0,
latency, jitter, download and upload 0, and the empty target-info record;
the label is the decimal rendering of the requested identifier when it is
a nonzero integer, and the literal "unknown" when none was configured or
the configured identifier was 0. -/
theorem failure_publishes_zero_sentinel (sid : Option Int) (res : ExecResult)
    (st : Metrics) (h : (execTest res).1 = Except.ok none) :
    runTest sid res st = (publishFailure (pyLabel sid) st, (execTest res).2, none) ∧
    getL (pyLabel sid) ((runTest sid res st).1).up = some 0 ∧
    getL (pyLabel sid) ((runTest sid res st).1).ping = some 0 ∧
    getL (pyLabel sid) ((runTest sid res st).1).jitter = some 0 ∧
    getL (pyLabel sid) ((runTest sid res st).1).download_speed = some 0 ∧
    getL (pyLabel sid) ((runTest sid res st).1).upload_speed = some 0 ∧
    getL (pyLabel sid) ((runTest sid res st).1).info = some InfoVal.empty := by
  have heq := runTest_failure_eq sid res st h
  refine ⟨heq, ?_, ?_, ?_, ?_, ?_, ?_⟩ <;>
    rw [heq] <;> simp [publishFailure, getL_setL_self]

/-- Witness for failure_publishes_zero_sentinel on a timed-out attempt for
target 5. -/
theorem failure_publishes_zero_sentinel_witness :
    ((execTest ExecResult.timeoutExpired).1 = Except.ok none) ∧
    (runTest (some 5) ExecResult.timeoutExpired emptyMetrics =
        (publishFailure (pyLabel (some 5)) emptyMetrics,
         (execTest ExecResult.timeoutExpired).2, none) ∧
     getL (pyLabel (some 5))
        ((runTest (some 5) ExecResult.timeoutExpired emptyMetrics).1).up = some 0 ∧
     getL (pyLabel (some 5))
        ((runTest (some 5) ExecResult.timeoutExpired emptyMetrics).1).ping = some 0 ∧
     getL (pyLabel (some 5))
        ((runTest (some 5) ExecResult.timeoutExpired emptyMetrics).1).jitter = some 0 ∧
     getL (pyLabel (some 5))
        ((runTest (some 5) ExecResult.timeoutExpired emptyMetrics).1).download_speed = some 0 ∧
     getL (pyLabel (some 5))
        ((runTest (some 5) ExecResult.timeoutExpired emptyMetrics).1).upload_speed = some 0 ∧
     getL (pyLabel (some 5))
        ((runTest (some 5) ExecResult.timeoutExpired emptyMetrics).1).info =
        some InfoVal.empty) :=
  ⟨rfl, failure_publishes_zero_sentinel (some 5) ExecResult.timeoutExpired emptyMetrics rfl⟩

/-- C3 counterexample. For a timed-out attempt with requested identifier 0,
nothing is published under the label "0": the failure sentinel appears
under the literal "unknown" instead, although an identifier was
configured. -/
theorem failure_label_zero_cex :
    getL "0" ((runTest (some 0) ExecResult.timeoutExpired emptyMetrics).1).up = none ∧
    getL "unknown" ((runTest (some 0) ExecResult.timeoutExpired emptyMetrics).1).up =
      some 0 :=
  ⟨rfl, rfl⟩

/-- When the cache is fresh, the /metrics handler returns at once with the
state untouched, no measurement, no diagnostics and no exception. -/
theorem updateResults_fresh (cs : ℤ) (env : Option (List Int))
    (now : ℤ) (outs : List ExecResult) (now2 : ℤ) (s : ServState)
    (h : ¬ s.cache_until < now) :
    updateResults cs env now outs now2 s = (s, false, [], none) := by
  unfold updateResults
  rw [if_neg h]

/-- When the cache is stale, the /metrics handler triggers a measurement
cycle. -/
theorem updateResults_measured (cs : ℤ) (env : Option (List Int))
    (now : ℤ) (outs : List ExecResult) (now2 : ℤ) (s : ServState)
    (h : s.cache_until < now) :
    (updateResults cs env now outs now2 s).2.1 = true := by
  unfold updateResults
  rw [if_pos h]
  rcases runTests ((targetsOf env).zip outs) s.metrics with ⟨m, ds, err⟩
  cases err <;> rfl

/-- After a stale-triggered cycle, cache_until either advanced to the
second clock reading plus the TTL (normal completion) or is unchanged (the
cycle raised before line 194 ran). -/
theorem updateResults_cache_cases (cs : ℤ) (env : Option (List Int))
    (now : ℤ) (outs : List ExecResult) (now2 : ℤ) (s : ServState)
    (h : s.cache_until < now) :
    (updateResults cs env now outs now2 s).1.cache_until = now2 + cs ∨
    (updateResults cs env now outs now2 s).1.cache_until = s.cache_until := by
  unfold updateResults
  rw [if_pos h]
  rcases runTests ((targetsOf env).zip outs) s.metrics with ⟨m, ds, err⟩
  cases err with
  | none => left; rfl
  | some e => right; rfl

/-- After a stale-triggered cycle that completed without an exception,
cache_until is the second clock reading plus the TTL. -/
theorem updateResults_cache_ok (cs : ℤ) (env : Option (List Int))
    (now : ℤ) (outs : List ExecResult) (now2 : ℤ) (s : ServState)
    (h : s.cache_until < now)
    (hok : (updateResults cs env now outs now2 s).2.2.2 = none) :
    (updateResults cs env now outs now2 s).1.cache_until = now2 + cs := by
  unfold updateResults at hok ⊢
  rw [if_pos h] at hok ⊢
  rcases hr : runTests ((targetsOf env).zip outs) s.metrics with ⟨m, ds, err⟩
  cases err with
  | none => rfl
  | some e =>
    rw [hr] at hok
    exact Option.noConfusion hok

/-- C4. With TTL configured to 0, the stored valid-until instant never lies
after the completion time of the last refresh, so a scrape arriving at a
strictly later clock reading is stale again: two sequential scrape requests
each take the refresh branch and trigger a new measurement cycle. -/
theorem ttl_zero_every_scrape_measures (env : Option (List Int))
    (outs1 outs2 : List ExecResult) (s : ServState) (t1 t1b t2 t2b : ℤ)
    (h1 : s.cache_until < t1) (h12 : t1 ≤ t1b) (h2 : t1b < t2) :
    (updateResults 0 env t1 outs1 t1b s).2.1 = true ∧
    (updateResults 0 env t2 outs2 t2b
        (updateResults 0 env t1 outs1 t1b s).1).2.1 = true := by
  refine ⟨updateResults_measured 0 env t1 outs1 t1b s h1, ?_⟩
  have hc := updateResults_cache_cases 0 env t1 outs1 t1b s h1
  rcases hc with hc | hc
  · exact updateResults_measured 0 env t2 outs2 t2b _ (by rw [hc]; linarith)
  · exact updateResults_measured 0 env t2 outs2 t2b _ (by rw [hc]; linarith)

/-- Witness for ttl_zero_every_scrape_measures on two requests at clock
readings 1 and 2 against an initially stale cache. -/
theorem ttl_zero_every_scrape_measures_witness :
    ((⟨0, emptyMetrics⟩ : ServState).cache_until < 1 ∧
      (1 : ℤ) ≤ 1 ∧ (1 : ℤ) < 2) ∧
    ((updateResults 0 none 1 [ExecResult.timeoutExpired] 1
        ⟨0, emptyMetrics⟩).2.1 = true ∧
     (updateResults 0 none 2 [ExecResult.timeoutExpired] 2
        (updateResults 0 none 1 [ExecResult.timeoutExpired] 1
          ⟨0, emptyMetrics⟩).1).2.1 = true) :=
  ⟨⟨by decide, by decide, by decide⟩,
   ttl_zero_every_scrape_measures none [ExecResult.timeoutExpired]
     [ExecResult.timeoutExpired] ⟨0, emptyMetrics⟩ 1 1 2 2
     (by decide) (by decide) (by decide)⟩

/-- C5. With TTL configured to N greater than 0, after a refresh that
completed without an exception at clock reading t1b, a second scrape
arriving at a reading at most t1b + N finds the cache fresh: it returns the
state unchanged, triggers no measurement cycle (hence no external-tool
invocation) and serves the previously published instrument values. -/
theorem ttl_positive_within_window_cached (N : ℤ) (hN : 0 < N)
    (env : Option (List Int)) (outs1 outs2 : List ExecResult) (s : ServState)
    (t1 t1b t2 t2b : ℤ) (h1 : s.cache_until < t1)
    (hok : (updateResults N env t1 outs1 t1b s).2.2.2 = none)
    (h2 : t2 ≤ t1b + N) :
    updateResults N env t2 outs2 t2b (updateResults N env t1 outs1 t1b s).1 =
      ((updateResults N env t1 outs1 t1b s).1, false, [], none) := by
  have hc := updateResults_cache_ok N env t1 outs1 t1b s h1 hok
  exact updateResults_fresh N env t2 outs2 t2b _ (by rw [hc]; linarith)

/-- Witness for ttl_positive_within_window_cached: TTL 5, refresh at clock 1,
second request at clock 4. -/
theorem ttl_positive_within_window_cached_witness :
    ((0 : ℤ) < 5 ∧ (⟨0, emptyMetrics⟩ : ServState).cache_until < 1 ∧
      (updateResults 5 none 1 [ExecResult.timeoutExpired] 1
        ⟨0, emptyMetrics⟩).2.2.2 = none ∧ (4 : ℤ) ≤ 1 + 5) ∧
    updateResults 5 none 4 [ExecResult.timeoutExpired] 4
        (updateResults 5 none 1 [ExecResult.timeoutExpired] 1
          ⟨0, emptyMetrics⟩).1 =
      ((updateResults 5 none 1 [ExecResult.timeoutExpired] 1
          ⟨0, emptyMetrics⟩).1, false, [], none) :=
  ⟨⟨by decide, by decide, rfl, by decide⟩,
   ttl_positive_within_window_cached 5 (by decide) none
     [ExecResult.timeoutExpired] [ExecResult.timeoutExpired]
     ⟨0, emptyMetrics⟩ 1 1 4 4 (by decide) rfl (by decide)⟩

/-- C6 (amended). When every target attempt of a refresh cycle ends in a
classified outcome (timeout, non-JSON output, explicit error payload,
well-formed log payload, unrecognized or missing kind, or a complete result
payload), every failure is converted to the failure-sentinel metric state
and the cycle visits all targets: no exception escapes updateResults, so
serving is never aborted. A JSON payload of a recognized kind that lacks a
required nested key raises an uncaught exception instead, aborting the
remaining targets and the request. -/
theorem tame_failures_never_abort (cs : ℤ) (env : Option (List Int))
    (now now2 : ℤ) (outs : List ExecResult) (s : ServState)
    (h : ∀ res ∈ outs, tame res = true) :
    (updateResults cs env now outs now2 s).2.2.2 = none := by
  unfold updateResults
  by_cases hc : s.cache_until < now
  · rw [if_pos hc]
    rcases hr : runTests ((targetsOf env).zip outs) s.metrics with ⟨m, ds, err⟩
    have herr : err = none := by
      have h2 : ∀ p ∈ (targetsOf env).zip outs, tame p.2 = true := by
        intro p hp
        exact h p.2 (List.of_mem_zip hp).2
      have h3 := runTests_tame ((targetsOf env).zip outs) s.metrics h2
      rw [hr] at h3
      exact h3
    subst herr
    rfl
  · rw [if_neg hc]

/-- Witness for tame_failures_never_abort: two targets, both timing out. -/
theorem tame_failures_never_abort_witness :
    (∀ res ∈ [ExecResult.timeoutExpired, ExecResult.timeoutExpired],
        tame res = true) ∧
    (updateResults 0 (some [1, 2]) 1
        [ExecResult.timeoutExpired, ExecResult.timeoutExpired] 1
        ⟨0, emptyMetrics⟩).2.2.2 = none :=
  ⟨by decide,
   tame_failures_never_abort 0 (some [1, 2]) 1 1
     [ExecResult.timeoutExpired, ExecResult.timeoutExpired]
     ⟨0, emptyMetrics⟩ (by decide)⟩

/-- C6 counterexample. With targets 1 and 2, target 1 returning a log
payload that lacks its timestamp key makes the refresh cycle raise an
uncaught KeyError: the request is aborted and target 2 is never measured —
no label of target 2 (neither the requested "2" nor the tool-reported "10")
receives any value. -/
theorem target_failure_aborts_rest_cex :
    (updateResults 0 (some [1, 2]) 1
        [ExecResult.success (RawOut.jsonOut badLogData),
         ExecResult.success (RawOut.jsonOut goodResultData)] 1
        ⟨0, emptyMetrics⟩).2.2.2 = some (PyErr.keyError "timestamp") ∧
    getL "2" ((updateResults 0 (some [1, 2]) 1
        [ExecResult.success (RawOut.jsonOut badLogData),
         ExecResult.success (RawOut.jsonOut goodResultData)] 1
        ⟨0, emptyMetrics⟩).1.metrics).up = none ∧
    getL "10" ((updateResults 0 (some [1, 2]) 1
        [ExecResult.success (RawOut.jsonOut badLogData),
         ExecResult.success (RawOut.jsonOut goodResultData)] 1
        ⟨0, emptyMetrics⟩).1.metrics).up = none :=
  ⟨rfl, rfl, rfl⟩

/-- C7. A non-zero exit whose captured output is JSON is handled exactly
like a normal exit with that output (the payload is handed to the parse
dispatch, and can yield a Measurement, as the concrete result payload
shows); a non-zero exit whose output is not JSON is reported as a failure,
with only a diagnostic note when the output is non-empty and the raw output
discarded. -/
theorem nonzero_exit_json_still_parsed :
    (∀ d : JsonObj,
        execTest (ExecResult.calledProcessError (RawOut.jsonOut d)) =
          execTest (ExecResult.success (RawOut.jsonOut d))) ∧
    (execTest (ExecResult.calledProcessError
        (RawOut.jsonOut goodResultData))).1 =
      Except.ok (some goodResultData) ∧
    (∀ len : Nat,
        execTest (ExecResult.calledProcessError (RawOut.notJson len)) =
          (Except.ok none,
           if 0 < len then [Diag.cliErrorNotJson] else [])) :=
  ⟨fun d => rfl, rfl, fun len => rfl⟩

/-- C8. The megabit rounding helper yields an exact multiple of one
hundredth (the value rounded to exactly two decimal digits) and is within
half of the last retained digit of the true quotient; as a pure function of
its numeric argument it depends on no ambient state. -/
theorem bits_to_megabits_two_decimals (b : ℚ) :
    (∃ k : ℤ, bits_to_megabits b = (k : ℚ) / 100) ∧
    |bits_to_megabits b - b / 1000000| ≤ 1 / 200 := by
  constructor
  · exact ⟨pyRound (b * (1 / 1000000) * 100), rfl⟩
  · have h := pyRound_close (b * (1 / 1000000) * 100)
    unfold bits_to_megabits round2
    have hb : b / 1000000 = b * (1 / 1000000) * 100 / 100 := by ring
    rw [hb, div_sub_div_same, abs_div]
    have h100 : |(100 : ℚ)| = 100 := by norm_num
    rw [h100, div_le_iff₀ (by norm_num : (0 : ℚ) < 100)]
    linarith

/-- C9 (amended). The staleness gate of updateResults is an unsynchronized
check-then-act on the module-level cache_until: whenever two request
threads both reach the staleness check while the cache is stale, each
check independently succeeds before either thread updates cache_until, and
the interleaving reaches a state in which both threads are inside the
measuring interval at once — two simultaneous external-tool invocations
for the same target set. -/
theorem concurrent_refresh_overlap (now ttl : ℤ) (s : GateState)
    (h1 : s.t1 = TPC.start) (h2 : s.t2 = TPC.start)
    (hs : s.cache_until < now) :
    gateStep now ttl s { s with t1 := TPC.measuring } ∧
    gateStep now ttl { s with t1 := TPC.measuring }
      { s with t1 := TPC.measuring, t2 := TPC.measuring } ∧
    ({ s with t1 := TPC.measuring, t2 := TPC.measuring } : GateState).t1 =
      TPC.measuring ∧
    ({ s with t1 := TPC.measuring, t2 := TPC.measuring } : GateState).t2 =
      TPC.measuring :=
  ⟨gateStep.check1_stale s h1 hs,
   gateStep.check2_stale { s with t1 := TPC.measuring } h2 hs,
   rfl, rfl⟩

/-- Witness for concurrent_refresh_overlap at a concrete stale state. -/
theorem concurrent_refresh_overlap_witness :
    ((⟨0, TPC.start, TPC.start⟩ : GateState).t1 = TPC.start ∧
     (⟨0, TPC.start, TPC.start⟩ : GateState).t2 = TPC.start ∧
     (⟨0, TPC.start, TPC.start⟩ : GateState).cache_until < 1) ∧
    (gateStep 1 5 ⟨0, TPC.start, TPC.start⟩
        { (⟨0, TPC.start, TPC.start⟩ : GateState) with t1 := TPC.measuring } ∧
     gateStep 1 5
        { (⟨0, TPC.start, TPC.start⟩ : GateState) with t1 := TPC.measuring }
        { (⟨0, TPC.start, TPC.start⟩ : GateState) with
            t1 := TPC.measuring, t2 := TPC.measuring } ∧
     ({ (⟨0, TPC.start, TPC.start⟩ : GateState) with
          t1 := TPC.measuring, t2 := TPC.measuring } : GateState).t1 =
        TPC.measuring ∧
     ({ (⟨0, TPC.start, TPC.start⟩ : GateState) with
          t1 := TPC.measuring, t2 := TPC.measuring } : GateState).t2 =
        TPC.measuring) :=
  ⟨⟨rfl, rfl, by decide⟩,
   concurrent_refresh_overlap 1 5 ⟨0, TPC.start, TPC.start⟩ rfl rfl (by decide)⟩

/-- Concrete interleaving states for the unsynchronized gate: both threads
pending, thread one past the check, both threads past the check. -/
def gateS0 : GateState := ⟨0, TPC.start, TPC.start⟩

/-- State after thread one passed the staleness check. -/
def gateS1 : GateState := ⟨0, TPC.measuring, TPC.start⟩

/-- State after both threads passed the staleness check. -/
def gateS2 : GateState := ⟨0, TPC.measuring, TPC.measuring⟩

/-- C9 counterexample. A concrete two-step interleaving of two concurrent
scrape requests on a stale cache in which both threads are simultaneously
inside the measuring interval: the claim that two concurrent requests never
cause two simultaneous external-tool invocations fails on the unlocked
check-then-act of updateResults. -/
theorem concurrent_refresh_overlap_cex :
    gateStep 1 5 gateS0 gateS1 ∧ gateStep 1 5 gateS1 gateS2 ∧
    gateS2.t1 = TPC.measuring ∧ gateS2.t2 = TPC.measuring :=
  ⟨gateStep.check1_stale gateS0 rfl (by decide),
   gateStep.check2_stale gateS1 rfl (by decide),
   rfl, rfl⟩

/-- C10. A requested identifier equal to 0 is falsy in Python: execTest
builds the command with no --server-id pin (identical to no configured
target), and a failed attempt publishes the failure sentinel under the
placeholder label "unknown", leaving the label "0" untouched. -/
theorem server_id_zero_unpinned_unknown (res : ExecResult) (st : Metrics)
    (h : (execTest res).1 = Except.ok none) :
    buildCmd (some 0) = buildCmd none ∧
    buildCmd (some 0) = ["speedtest", "--format=json-pretty", "--progress=no",
      "--accept-license", "--accept-gdpr"] ∧
    (runTest (some 0) res st).1 = publishFailure "unknown" st ∧
    getL "0" ((runTest (some 0) res st).1).up = getL "0" st.up := by
  have heq := runTest_failure_eq (some 0) res st h
  refine ⟨rfl, rfl, ?_, ?_⟩
  · rw [heq]
    rfl
  · rw [heq]
    show getL "0" (publishFailure "unknown" st).up = getL "0" st.up
    unfold publishFailure
    exact getL_setL_ne "0" "unknown" 0 st.up (by decide)

/-- Witness for server_id_zero_unpinned_unknown on a timed-out attempt. -/
theorem server_id_zero_unpinned_unknown_witness :
    ((execTest ExecResult.timeoutExpired).1 = Except.ok none) ∧
    (buildCmd (some 0) = buildCmd none ∧
     buildCmd (some 0) = ["speedtest", "--format=json-pretty", "--progress=no",
       "--accept-license", "--accept-gdpr"] ∧
     (runTest (some 0) ExecResult.timeoutExpired emptyMetrics).1 =
        publishFailure "unknown" emptyMetrics ∧
     getL "0" ((runTest (some 0) ExecResult.timeoutExpired emptyMetrics).1).up =
        getL "0" emptyMetrics.up) :=
  ⟨rfl, server_id_zero_unpinned_unknown ExecResult.timeoutExpired emptyMetrics rfl⟩
